import Mathlib

/-!
Verification of the recipe-catalog CRUD service.

The development shallowly embeds the persistent data model
(`app/models/*.py`: the `cuisines`, `allergens`, `ingredients`, `recipes`,
`recipe_allergens` and `recipe_ingredients` tables) and the request handlers
of `app/api/recipes.py`, `app/api/ingredients.py` and `app/api/allergens.py`.

A database is a record of lists of rows plus the auto-increment counters the
relational store keeps for the integer primary keys.  Each handler is a pure
function from a database and a parsed request to `Except ApiError result`;
a handler that commits returns the successor database.  An `Except.error`
models an HTTP error response: the transaction is rolled back and the
database is unchanged, which the `...DB` wrappers make explicit.
-/

namespace RecipeApp

/-- Outcome of a failed request.  `notFound` is an `HTTPException(404)`
raised by a handler; `integrityError` is a database constraint violation
raised at flush/commit time that no handler catches; `unboundLocalError` is a
Python `UnboundLocalError` escaping a handler.  Uncaught exceptions are
surfaced by the framework as HTTP 500 responses. -/
inductive ApiError where
  | notFound (detail : String)
  | integrityError (detail : String)
  | unboundLocalError (name : String)
deriving DecidableEq, Repr

deriving instance DecidableEq for Except

/-- The HTTP status code of the response produced by an `ApiError`. -/
def ApiError.status : ApiError → Nat
  | .notFound _ => 404
  | .integrityError _ => 500
  | .unboundLocalError _ => 500

/-- Row of the `cuisines` table (`app/models/cuisine.py`): integer primary
key and a name carrying a UNIQUE constraint. -/
structure Cuisine where
  id : Int
  name : String
deriving DecidableEq, Repr

/-- Row of the `allergens` table (`app/models/allergen.py`). -/
structure Allergen where
  id : Int
  name : String
deriving DecidableEq, Repr

/-- Row of the `ingredients` table (`app/models/ingredient.py`). -/
structure Ingredient where
  id : Int
  name : String
deriving DecidableEq, Repr

/-- Row of the `recipes` table (`app/models/recipe.py`).  Note that
`description` is declared `Mapped[str]` (no `Optional`), so the column is
NOT NULL; a stored row always has a string description. -/
structure Recipe where
  id : Int
  title : String
  description : String
  instructions : String
  cooking_time : Int
  difficulty : Int
  cuisine_id : Int
deriving DecidableEq, Repr

/-- Row of the `recipe_allergens` pure join table. -/
structure RecipeAllergens where
  recipe_id : Int
  allergen_id : Int
deriving DecidableEq, Repr

/-- Row of the `recipe_ingredients` join table with payload. -/
structure RecipeIngredient where
  id : Int
  recipe_id : Int
  ingredient_id : Int
  quantity : Int
  measurement : Int
deriving DecidableEq, Repr

/-- The relational store: one list of rows per table, in physical order,
plus the auto-increment counters for the integer primary keys that are
assigned by the database on insert. -/
structure DB where
  cuisines : List Cuisine
  allergens : List Allergen
  ingredients : List Ingredient
  recipes : List Recipe
  recipe_allergens : List RecipeAllergens
  recipe_ingredients : List RecipeIngredient
  next_recipe_id : Int
  next_recipe_ingredient_id : Int
  next_ingredient_id : Int
deriving DecidableEq, Repr

/-- Well-formedness guaranteed by the primary-key constraints of the store:
no table holds two rows with the same primary key. -/
def DB.WF (db : DB) : Prop :=
  (db.cuisines.map Cuisine.id).Nodup ∧
  (db.allergens.map Allergen.id).Nodup ∧
  (db.ingredients.map Ingredient.id).Nodup ∧
  (db.recipes.map Recipe.id).Nodup ∧
  (db.recipe_ingredients.map RecipeIngredient.id).Nodup

/-- Modelled from the spec: `enums.py` (the `MeasurementEnum` definition) is
not among the sources; the spec only states that `measurement` must belong to
"the closed set of enumerated unit codes" (e.g. grams, pieces, milliliters).
A concrete three-code set stands in for that closed set; no theorem depends
on the particular values. -/
def measurementValues : List Int := [1, 2, 3]

/-- Request schema `RecipeIngredientCreate` of `app/api/recipes.py`. -/
structure RecipeIngredientCreate where
  ingredient_id : Int
  quantity : Int
  measurement : Int
deriving DecidableEq, Repr

/-- The pydantic validation of `RecipeIngredientCreate`: the `measurement`
validator accepts exactly the `MeasurementEnum` values. -/
def RecipeIngredientCreate.Valid (e : RecipeIngredientCreate) : Prop :=
  e.measurement ∈ measurementValues

/-- Request schema `RecipeCreate` of `app/api/recipes.py`.  `description`
is `Optional[str]`, so an omitted description parses to `none`. -/
structure RecipeCreate where
  title : String
  description : Option String
  instructions : String
  cooking_time : Int
  difficulty : Int
  cuisine_id : Int
  allergen_ids : List Int
  ingredients : List RecipeIngredientCreate
deriving DecidableEq, Repr

/-- The pydantic field constraints of `RecipeCreate`: title length 3–100,
description at most 500 characters when present, instructions at least 10
characters, positive cooking time, difficulty in `[1,5]`, and every
ingredient entry passing its own validator. -/
def RecipeCreate.Valid (rc : RecipeCreate) : Prop :=
  3 ≤ rc.title.length ∧ rc.title.length ≤ 100 ∧
  (rc.description.getD "").length ≤ 500 ∧
  10 ≤ rc.instructions.length ∧
  0 < rc.cooking_time ∧
  1 ≤ rc.difficulty ∧ rc.difficulty ≤ 5 ∧
  ∀ e ∈ rc.ingredients, e.Valid

instance : DecidablePred RecipeIngredientCreate.Valid := fun e =>
  decidable_of_iff (e.measurement ∈ measurementValues) Iff.rfl

instance : DecidablePred RecipeCreate.Valid := fun rc =>
  decidable_of_iff
    (3 ≤ rc.title.length ∧ rc.title.length ≤ 100 ∧
     (rc.description.getD "").length ≤ 500 ∧
     10 ≤ rc.instructions.length ∧
     0 < rc.cooking_time ∧
     1 ≤ rc.difficulty ∧ rc.difficulty ≤ 5 ∧
     ∀ e ∈ rc.ingredients, e.Valid)
    Iff.rfl

/-- Request schema `RecipeUpdate` of `app/api/recipes.py`.  Every field is
declared `Optional` with default `None`, so a request can omit a field,
supply a value, or supply an explicit JSON null (pydantic accepts the null:
the length/range constraints are skipped for `None`).  The handler applies
`model_dump(exclude_unset=True)`, which keeps an explicitly supplied null
but drops an omitted field.  Encoding: the outer `Option` is whether the
field was set at all (`none` = omitted), the inner `Option` is the supplied
payload (`some none` = explicit null, `some (some v)` = value `v`). -/
structure RecipeUpdate where
  title : Option (Option String)
  description : Option (Option String)
  instructions : Option (Option String)
  cooking_time : Option (Option Int)
  difficulty : Option (Option Int)
  cuisine_id : Option (Option Int)
deriving DecidableEq, Repr

/-- True when the request supplies an explicit null for some field.  All six
columns touched by `update` are declared `Mapped[...]` without `Optional` in
`app/models/recipe.py`, hence NOT NULL, so writing any such null is rejected
by the database at commit. -/
def RecipeUpdate.hasNullField (u : RecipeUpdate) : Bool :=
  u.title == some none || u.description == some none ||
  u.instructions == some none || u.cooking_time == some none ||
  u.difficulty == some none || u.cuisine_id == some none

/-- View schema `CuisineRead` of `app/api/recipes.py`. -/
structure CuisineRead where
  id : Int
  name : String
deriving DecidableEq, Repr

/-- View schema `AllergenRead` of `app/api/recipes.py`. -/
structure AllergenRead where
  id : Int
  name : String
deriving DecidableEq, Repr

/-- View schema `RecipeIngredientRead` of `app/api/recipes.py`. -/
structure RecipeIngredientRead where
  ingredient_id : Int
  quantity : Int
  measurement : Int
deriving DecidableEq, Repr

/-- View schema `RecipeRead` of `app/api/recipes.py`: the hydrated recipe,
with its cuisine, allergens and ingredient links resolved. -/
structure RecipeRead where
  id : Int
  title : String
  description : Option String
  instructions : String
  cooking_time : Int
  difficulty : Int
  cuisine : CuisineRead
  allergens : List AllergenRead
  ingredients : List RecipeIngredientRead
deriving DecidableEq, Repr

/-- Embeds `store` of `app/api/recipes.py` (POST /recipes).  Step by step:
`session.get(Cuisine, cuisine_id)` is a primary-key lookup (404 when absent);
the allergen batch check runs only for a non-empty `allergen_ids` and
compares the number of distinct matching rows fetched by
`SELECT ... WHERE id IN (...)` with `len(allergen_ids)`; the ingredient
batch check is the same comparison but runs unconditionally; the recipe row
is inserted at `flush()`, which raises an IntegrityError when `description`
is `None` because the `recipes.description` column is NOT NULL; finally the
allergen associations and one `RecipeIngredient` row per entry are inserted
and the whole transaction commits.  The returned view is the reloaded,
hydrated recipe. -/
def recipesStore (db : DB) (rc : RecipeCreate) : Except ApiError (DB × RecipeRead) :=
  match db.cuisines.find? (fun c => c.id == rc.cuisine_id) with
  | none => Except.error (ApiError.notFound "Cuisine not found")
  | some cuisine =>
    let allergens := db.allergens.filter (fun a => rc.allergen_ids.contains a.id)
    if !rc.allergen_ids.isEmpty && allergens.length != rc.allergen_ids.length then
      Except.error (ApiError.notFound "One or more allergens not found")
    else
      let ingredient_ids := rc.ingredients.map RecipeIngredientCreate.ingredient_id
      let ingredients_db := db.ingredients.filter (fun i => ingredient_ids.contains i.id)
      if ingredients_db.length != ingredient_ids.length then
        Except.error (ApiError.notFound "One or more ingredients not found")
      else
        match rc.description with
        | none => Except.error (ApiError.integrityError "NOT NULL constraint failed: recipes.description")
        | some desc =>
          let rid := db.next_recipe_id
          let recipe : Recipe :=
            { id := rid, title := rc.title, description := desc,
              instructions := rc.instructions, cooking_time := rc.cooking_time,
              difficulty := rc.difficulty, cuisine_id := rc.cuisine_id }
          let newAssocs := allergens.map (fun a => RecipeAllergens.mk rid a.id)
          let newLinks := rc.ingredients.enum.map (fun p =>
            RecipeIngredient.mk (db.next_recipe_ingredient_id + (p.1 : Int)) rid
              p.2.ingredient_id p.2.quantity p.2.measurement)
          let db' : DB :=
            { db with
              recipes := db.recipes ++ [recipe],
              recipe_allergens := db.recipe_allergens ++ newAssocs,
              recipe_ingredients := db.recipe_ingredients ++ newLinks,
              next_recipe_id := rid + 1,
              next_recipe_ingredient_id :=
                db.next_recipe_ingredient_id + (rc.ingredients.length : Int) }
          let view : RecipeRead :=
            { id := rid, title := rc.title, description := some desc,
              instructions := rc.instructions, cooking_time := rc.cooking_time,
              difficulty := rc.difficulty,
              cuisine := CuisineRead.mk cuisine.id cuisine.name,
              allergens := allergens.map (fun a => AllergenRead.mk a.id a.name),
              ingredients := newLinks.map (fun l =>
                RecipeIngredientRead.mk l.ingredient_id l.quantity l.measurement) }
          Except.ok (db', view)

/-- The database as observed after a call to `store`: the committed successor
database on success, the unchanged database on failure (rollback). -/
def recipesStoreDB (db : DB) (rc : RecipeCreate) : DB :=
  match recipesStore db rc with
  | Except.ok (db', _) => db'
  | Except.error _ => db

/-- Inserts a recipe row into a list sorted by ascending id, keeping it
sorted (helper for the `ORDER BY id` of the read paths). -/
def insertById (r : Recipe) : List Recipe → List Recipe
  | [] => [r]
  | x :: xs => if r.id ≤ x.id then r :: x :: xs else x :: insertById r xs

/-- Sorts recipe rows by ascending id: the `ORDER BY recipes.id` of the
list endpoint, written as a structurally recursive insertion sort. -/
def sortById (rs : List Recipe) : List Recipe :=
  rs.foldr insertById []

/-- Embeds `index` of `app/api/recipes.py` (GET /recipes) down to the row
selection: `ORDER BY id`, optional exact `difficulty` filter, then
OFFSET `skip` and LIMIT `limit`.  Hydration of each selected row does not
change which rows are selected. -/
def recipesIndex (db : DB) (skip limit : Nat) (difficulty : Option Int) : List Recipe :=
  let ordered : List Recipe := sortById db.recipes
  let filtered : List Recipe :=
    match difficulty with
    | some d => ordered.filter (fun r => r.difficulty == d)
    | none => ordered
  (filtered.drop skip).take limit

/-- Embeds `show` of `app/api/recipes.py` (GET /recipes/{id}). -/
def recipesShow (db : DB) (id : Int) : Except ApiError Recipe :=
  match db.recipes.find? (fun r => r.id == id) with
  | some r => Except.ok r
  | none => Except.error (ApiError.notFound "Recipe not found")

/-- The `setattr` loop of `update` in `app/api/recipes.py` on its
committable path: each field supplied with a value
(`some (some v)`) overwrites the row's field; an omitted field (`none`) is
left untouched.  Only the six scalar columns of `RecipeUpdate` can be
touched.  A field supplied as explicit null (`some none`) never reaches a
committed row — `recipesUpdate` routes that request into the NOT NULL
IntegrityError branch — so this function keeps the old value there. -/
def applyRecipeUpdate (u : RecipeUpdate) (r : Recipe) : Recipe :=
  { r with
    title := (u.title.getD none).getD r.title,
    description := (u.description.getD none).getD r.description,
    instructions := (u.instructions.getD none).getD r.instructions,
    cooking_time := (u.cooking_time.getD none).getD r.cooking_time,
    difficulty := (u.difficulty.getD none).getD r.difficulty,
    cuisine_id := (u.cuisine_id.getD none).getD r.cuisine_id }

/-- Embeds `update` of `app/api/recipes.py` (PUT /recipes/{id}): primary-key
lookup (404 when absent), then the `setattr` loop on the found row and a
commit.  When the request supplies an explicit null for any field, `setattr`
writes `None` into a NOT NULL column and the commit raises an IntegrityError
that the handler does not catch (HTTP 500; the real message names the first
violated column) and the transaction rolls back.  Otherwise the commit
succeeds; no other table is touched. -/
def recipesUpdate (db : DB) (id : Int) (u : RecipeUpdate) : Except ApiError (DB × Recipe) :=
  match db.recipes.find? (fun r => r.id == id) with
  | none => Except.error (ApiError.notFound "Recipe not found")
  | some r0 =>
    if u.hasNullField then
      Except.error (ApiError.integrityError "NOT NULL constraint failed: recipes")
    else
      let db' : DB :=
        { db with
          recipes := db.recipes.map (fun r => if r.id == id then applyRecipeUpdate u r else r) }
      Except.ok (db', applyRecipeUpdate u r0)

/-- The database as observed after a call to `update`: the committed
successor database on success, the unchanged database on failure
(rollback). -/
def recipesUpdateDB (db : DB) (id : Int) (u : RecipeUpdate) : DB :=
  match recipesUpdate db id u with
  | Except.ok (db', _) => db'
  | Except.error _ => db

/-- Embeds `destroy` of `app/api/recipes.py` (DELETE /recipes/{id}):
primary-key lookup (404 when absent), then `session.delete(recipe)`, whose
unit of work removes the recipe row, cascades the `delete-orphan`
relationship onto the recipe's `recipe_ingredients` rows, and deletes the
recipe's rows of the `recipe_allergens` secondary table.  The referenced
cuisine, allergen and ingredient rows are not touched. -/
def recipesDestroy (db : DB) (id : Int) : Except ApiError DB :=
  match db.recipes.find? (fun r => r.id == id) with
  | none => Except.error (ApiError.notFound "Recipe not found")
  | some _ =>
    Except.ok
      { db with
        recipes := db.recipes.filter (fun r => r.id != id),
        recipe_ingredients := db.recipe_ingredients.filter (fun l => l.recipe_id != id),
        recipe_allergens := db.recipe_allergens.filter (fun a => a.recipe_id != id) }

/-- Embeds `store` of `app/api/ingredients.py` (POST /ingredients).  The
handler itself performs no duplicate check: it inserts and commits.  When the
name already exists, the UNIQUE constraint on `ingredients.name` rejects the
insert at commit with an IntegrityError that the handler does not catch, and
the transaction is rolled back.  Otherwise the row is inserted with the next
auto-assigned id and returned (HTTP 201). -/
def ingredientsStore (db : DB) (name : String) : Except ApiError (DB × Ingredient) :=
  if db.ingredients.any (fun i => i.name == name) then
    Except.error (ApiError.integrityError "UNIQUE constraint failed: ingredients.name")
  else
    let row : Ingredient := Ingredient.mk db.next_ingredient_id name
    Except.ok
      ({ db with
         ingredients := db.ingredients ++ [row],
         next_ingredient_id := db.next_ingredient_id + 1 }, row)

/-- The database as observed after a call to the ingredient `store`. -/
def ingredientsStoreDB (db : DB) (name : String) : DB :=
  match ingredientsStore db name with
  | Except.ok (db', _) => db'
  | Except.error _ => db

/-- Embeds `show` of `app/api/ingredients.py` (GET /ingredients/{id}). -/
def ingredientsShow (db : DB) (id : Int) : Except ApiError Ingredient :=
  match db.ingredients.find? (fun i => i.id == id) with
  | some i => Except.ok i
  | none => Except.error (ApiError.notFound "Ingredient not found")

/-- Embeds `get_recipes_by_ingredient` of `app/api/ingredients.py`
(GET /ingredients/{id}/recipes).  After the existence check on the
ingredient, the query `SELECT recipes JOIN recipe_ingredients ... WHERE
recipe_ingredients.ingredient_id = id` followed by `DISTINCT` yields each
recipe row that has at least one matching link row, once: on the embedding
that is a filter of the `recipes` table, because two distinct stored recipe
rows always differ (in their primary key), so `DISTINCT` collapses exactly
the join duplicates arising from multiple link rows. -/
def getRecipesByIngredient (db : DB) (id : Int) : Except ApiError (List Recipe) :=
  match db.ingredients.find? (fun i => i.id == id) with
  | none => Except.error (ApiError.notFound "Ingredient not found")
  | some _ =>
    Except.ok (db.recipes.filter (fun r =>
      db.recipe_ingredients.any (fun l => l.recipe_id == r.id && l.ingredient_id == id)))

/-- Embeds `show` of `app/api/allergens.py` (GET /Allergens/{id}).  The
handler body is `Allergen = await session.get(Allergen, id)`: because the
name `Allergen` is assigned inside the function body, Python treats it as a
local variable throughout the body, so the occurrence of `Allergen` passed
to `session.get` reads a not-yet-assigned local and every call raises
`UnboundLocalError` before the database is consulted.  The framework turns
the uncaught exception into an HTTP 500 response. -/
def allergensShow (_db : DB) (_id : Int) : Except ApiError Allergen :=
  Except.error (ApiError.unboundLocalError "Allergen")

/-- A request outcome that is some 404 response. -/
def failsNotFound {α : Type} (r : Except ApiError α) : Prop :=
  ∃ d, r = Except.error (ApiError.notFound d)

/-- A list with a repeated element has strictly fewer distinct elements than
elements. -/
theorem toFinset_card_lt_of_not_nodup (l : List Int) (h : ¬ l.Nodup) :
    l.toFinset.card < l.length := by
  have hcard : l.toFinset.card = l.dedup.length := rfl
  have hle : l.dedup.length ≤ l.length := l.dedup_sublist.length_le
  rcases lt_or_eq_of_le hle with hlt | heq
  · omega
  · exact absurd (l.dedup_sublist.eq_of_length heq ▸ l.nodup_dedup) h

/-- The keys of the rows selected by `WHERE key IN ids` are themselves
duplicate-free whenever the table's keys are. -/
theorem nodup_map_filter_contains {α : Type} (f : α → Int) (rows : List α)
    (p : α → Bool) (hnd : (rows.map f).Nodup) :
    ((rows.filter p).map f).Nodup :=
  hnd.sublist ((rows.filter_sublist).map f)

/-- Counting argument for the batch existence checks: when some requested id
matches no row, the `SELECT ... WHERE key IN ids` result has strictly fewer
rows than `ids` has entries, so the handler's length comparison fails. -/
theorem length_filter_contains_lt_of_missing {α : Type} (f : α → Int)
    (rows : List α) (ids : List Int) (hnd : (rows.map f).Nodup)
    (aid : Int) (hmem : aid ∈ ids) (hmiss : ∀ r ∈ rows, f r ≠ aid) :
    (rows.filter (fun r => ids.contains (f r))).length < ids.length := by
  set m := rows.filter (fun r => ids.contains (f r)) with hm
  have hlnd : (m.map f).Nodup := nodup_map_filter_contains f rows _ hnd
  have hsub : (m.map f).toFinset ⊆ ids.toFinset.erase aid := by
    intro x hx
    rcases List.mem_map.1 (List.mem_toFinset.1 hx) with ⟨r, hr, rfl⟩
    have hr' := List.mem_filter.1 hr
    refine Finset.mem_erase.2 ⟨hmiss r hr'.1, List.mem_toFinset.2 ?_⟩
    exact List.elem_iff.1 hr'.2
  have hcard : (m.map f).toFinset.card ≤ ids.toFinset.card - 1 := by
    calc (m.map f).toFinset.card ≤ (ids.toFinset.erase aid).card :=
          Finset.card_le_card hsub
      _ = ids.toFinset.card - 1 :=
          Finset.card_erase_of_mem (List.mem_toFinset.2 hmem)
  have hpos : 1 ≤ ids.toFinset.card :=
    Finset.card_pos.2 ⟨aid, List.mem_toFinset.2 hmem⟩
  have hidsle : ids.toFinset.card ≤ ids.length := ids.toFinset_card_le
  have hlen : m.length = (m.map f).toFinset.card := by
    rw [List.toFinset_card_of_nodup hlnd, List.length_map]
  omega

/-- Counting argument for the batch existence checks, duplicate case: when
`ids` repeats an entry, the distinct rows selected by `WHERE key IN ids` are
again strictly fewer than the entries, and the length comparison fails even
if every id exists. -/
theorem length_filter_contains_lt_of_dup {α : Type} (f : α → Int)
    (rows : List α) (ids : List Int) (hnd : (rows.map f).Nodup)
    (hdup : ¬ ids.Nodup) :
    (rows.filter (fun r => ids.contains (f r))).length < ids.length := by
  set m := rows.filter (fun r => ids.contains (f r)) with hm
  have hlnd : (m.map f).Nodup := nodup_map_filter_contains f rows _ hnd
  have hsub : (m.map f).toFinset ⊆ ids.toFinset := by
    intro x hx
    rcases List.mem_map.1 (List.mem_toFinset.1 hx) with ⟨r, hr, rfl⟩
    exact List.mem_toFinset.2 (List.elem_iff.1 (List.mem_filter.1 hr).2)
  have hlen : m.length = (m.map f).toFinset.card := by
    rw [List.toFinset_card_of_nodup hlnd, List.length_map]
  have := Finset.card_le_card hsub
  have := toFinset_card_lt_of_not_nodup ids hdup
  omega

/-- Counting argument for the batch existence checks, success case: when the
requested ids are pairwise distinct and each matches a row, the selected rows
are exactly as many as the entries and the length comparison succeeds. -/
theorem length_filter_contains_eq_of_covered {α : Type} (f : α → Int)
    (rows : List α) (ids : List Int) (hnd : (rows.map f).Nodup)
    (hids : ids.Nodup) (hcov : ∀ i ∈ ids, ∃ r ∈ rows, f r = i) :
    (rows.filter (fun r => ids.contains (f r))).length = ids.length := by
  set m := rows.filter (fun r => ids.contains (f r)) with hm
  have hlnd : (m.map f).Nodup := nodup_map_filter_contains f rows _ hnd
  have hset : (m.map f).toFinset = ids.toFinset := by
    apply Finset.Subset.antisymm
    · intro x hx
      rcases List.mem_map.1 (List.mem_toFinset.1 hx) with ⟨r, hr, rfl⟩
      exact List.mem_toFinset.2 (List.elem_iff.1 (List.mem_filter.1 hr).2)
    · intro x hx
      rcases hcov x (List.mem_toFinset.1 hx) with ⟨r, hr, rfl⟩
      refine List.mem_toFinset.2 (List.mem_map.2 ⟨r, ?_, rfl⟩)
      exact List.mem_filter.2 ⟨hr, List.elem_iff.2 (List.mem_toFinset.1 hx)⟩
  have hlen : m.length = (m.map f).toFinset.card := by
    rw [List.toFinset_card_of_nodup hlnd, List.length_map]
  rw [hlen, hset, List.toFinset_card_of_nodup hids]

/-- Reduction of `recipesStore` on its success path: with the cuisine found,
both batch checks passing and a description present, the handler commits the
recipe row, the allergen associations and one link row per ingredient entry,
and returns the hydrated view. -/
theorem recipesStore_eq_ok (db : DB) (rc : RecipeCreate) (c : Cuisine) (d : String)
    (hfind : db.cuisines.find? (fun x => x.id == rc.cuisine_id) = some c)
    (hall : (db.allergens.filter (fun a => rc.allergen_ids.contains a.id)).length
      = rc.allergen_ids.length)
    (hing : (db.ingredients.filter (fun i =>
        (rc.ingredients.map RecipeIngredientCreate.ingredient_id).contains i.id)).length
      = rc.ingredients.length)
    (hdesc : rc.description = some d) :
    recipesStore db rc = Except.ok
      ({ db with
         recipes := db.recipes ++
           [{ id := db.next_recipe_id, title := rc.title, description := d,
              instructions := rc.instructions, cooking_time := rc.cooking_time,
              difficulty := rc.difficulty, cuisine_id := rc.cuisine_id }],
         recipe_allergens := db.recipe_allergens ++
           (db.allergens.filter (fun a => rc.allergen_ids.contains a.id)).map
             (fun a => RecipeAllergens.mk db.next_recipe_id a.id),
         recipe_ingredients := db.recipe_ingredients ++
           rc.ingredients.enum.map (fun p =>
             RecipeIngredient.mk (db.next_recipe_ingredient_id + (p.1 : Int))
               db.next_recipe_id p.2.ingredient_id p.2.quantity p.2.measurement),
         next_recipe_id := db.next_recipe_id + 1,
         next_recipe_ingredient_id :=
           db.next_recipe_ingredient_id + (rc.ingredients.length : Int) },
       { id := db.next_recipe_id, title := rc.title, description := some d,
         instructions := rc.instructions, cooking_time := rc.cooking_time,
         difficulty := rc.difficulty,
         cuisine := CuisineRead.mk c.id c.name,
         allergens := (db.allergens.filter (fun a => rc.allergen_ids.contains a.id)).map
           (fun a => AllergenRead.mk a.id a.name),
         ingredients := (rc.ingredients.enum.map (fun p =>
             RecipeIngredient.mk (db.next_recipe_ingredient_id + (p.1 : Int))
               db.next_recipe_id p.2.ingredient_id p.2.quantity p.2.measurement)).map
           (fun l => RecipeIngredientRead.mk l.ingredient_id l.quantity l.measurement) }) := by
  unfold recipesStore
  rw [hfind, hdesc]
  simp only [hall, hing, List.length_map, bne_self_eq_false, Bool.and_false, Bool.false_eq_true,
    if_false, ite_false]

/-- Reduction of `recipesStore` when the cuisine lookup fails: the handler
raises 404 before touching any table. -/
theorem recipesStore_eq_error_cuisine (db : DB) (rc : RecipeCreate)
    (hfind : db.cuisines.find? (fun x => x.id == rc.cuisine_id) = none) :
    recipesStore db rc = Except.error (ApiError.notFound "Cuisine not found") := by
  unfold recipesStore
  rw [hfind]

/-- Reduction of `recipesStore` when the allergen batch check fails. -/
theorem recipesStore_eq_error_allergens (db : DB) (rc : RecipeCreate) (c : Cuisine)
    (hfind : db.cuisines.find? (fun x => x.id == rc.cuisine_id) = some c)
    (hne : rc.allergen_ids ≠ [])
    (hlen : (db.allergens.filter (fun a => rc.allergen_ids.contains a.id)).length
      ≠ rc.allergen_ids.length) :
    recipesStore db rc = Except.error (ApiError.notFound "One or more allergens not found") := by
  unfold recipesStore
  rw [hfind]
  have h1 : rc.allergen_ids.isEmpty = false := by
    simpa [List.isEmpty_iff] using hne
  have h2 : ((db.allergens.filter (fun a => rc.allergen_ids.contains a.id)).length
      != rc.allergen_ids.length) = true := by
    simpa using hlen
  simp only [h1, h2, Bool.not_false, Bool.and_self, if_true, ite_true]

/-- Reduction of `recipesStore` when the allergen batch check passes but the
ingredient batch check fails. -/
theorem recipesStore_eq_error_ingredients (db : DB) (rc : RecipeCreate) (c : Cuisine)
    (hfind : db.cuisines.find? (fun x => x.id == rc.cuisine_id) = some c)
    (hall : (db.allergens.filter (fun a => rc.allergen_ids.contains a.id)).length
      = rc.allergen_ids.length)
    (hlen : (db.ingredients.filter (fun i =>
        (rc.ingredients.map RecipeIngredientCreate.ingredient_id).contains i.id)).length
      ≠ rc.ingredients.length) :
    recipesStore db rc = Except.error (ApiError.notFound "One or more ingredients not found") := by
  unfold recipesStore
  rw [hfind]
  have h2 : ((db.ingredients.filter (fun i =>
      (rc.ingredients.map RecipeIngredientCreate.ingredient_id).contains i.id)).length
      != (rc.ingredients.map RecipeIngredientCreate.ingredient_id).length) = true := by
    simp only [List.length_map]
    simpa using hlen
  simp only [hall, bne_self_eq_false, Bool.and_false, Bool.false_eq_true, if_false, ite_false,
    h2, if_true, ite_true]

/-- C1: a recipe-create request whose `cuisine_id` matches no stored Cuisine
fails with `NotFound` (HTTP 404); the database, hence every table and every
subsequent `list()` result, is unchanged. -/
theorem recipes_store_missing_cuisine_rolls_back (db : DB) (rc : RecipeCreate)
    (hc : ∀ c ∈ db.cuisines, c.id ≠ rc.cuisine_id) :
    recipesStore db rc = Except.error (ApiError.notFound "Cuisine not found") ∧
    (ApiError.notFound "Cuisine not found").status = 404 ∧
    recipesStoreDB db rc = db ∧
    ∀ skip limit d, recipesIndex (recipesStoreDB db rc) skip limit d
      = recipesIndex db skip limit d := by
  have hfind : db.cuisines.find? (fun x => x.id == rc.cuisine_id) = none := by
    rw [List.find?_eq_none]
    intro c hcmem
    simpa using hc c hcmem
  have hstore := recipesStore_eq_error_cuisine db rc hfind
  have hdb : recipesStoreDB db rc = db := by
    unfold recipesStoreDB
    rw [hstore]
  refine ⟨hstore, rfl, hdb, fun skip limit d => by rw [hdb]⟩

/-- Closed instance of the C1 theorem on a one-cuisine database and a
request referencing the absent cuisine id 7. -/
theorem recipes_store_missing_cuisine_rolls_back_witness :
    recipesStore (DB.mk [Cuisine.mk 1 "Italian"] [] [] [] [] [] 1 1 1)
        (RecipeCreate.mk "Pasta!" (some "yum") "Boil water then serve" 20 2 7 [] [])
      = Except.error (ApiError.notFound "Cuisine not found") ∧
    recipesStoreDB (DB.mk [Cuisine.mk 1 "Italian"] [] [] [] [] [] 1 1 1)
        (RecipeCreate.mk "Pasta!" (some "yum") "Boil water then serve" 20 2 7 [] [])
      = DB.mk [Cuisine.mk 1 "Italian"] [] [] [] [] [] 1 1 1 ∧
    recipesIndex
        (recipesStoreDB (DB.mk [Cuisine.mk 1 "Italian"] [] [] [] [] [] 1 1 1)
          (RecipeCreate.mk "Pasta!" (some "yum") "Boil water then serve" 20 2 7 [] []))
        0 10 none
      = recipesIndex (DB.mk [Cuisine.mk 1 "Italian"] [] [] [] [] [] 1 1 1) 0 10 none := by
  have h := recipes_store_missing_cuisine_rolls_back
    (DB.mk [Cuisine.mk 1 "Italian"] [] [] [] [] [] 1 1 1)
    (RecipeCreate.mk "Pasta!" (some "yum") "Boil water then serve" 20 2 7 [] [])
    (by decide)
  exact ⟨h.1, h.2.2.1, h.2.2.2 0 10 none⟩

/-- C2: a recipe-create request whose `allergen_ids` contains an id with no
matching Allergen fails with `NotFound`, and nothing is persisted: the
database — recipe rows and allergen associations included — and every
subsequent `list()` result are unchanged. -/
theorem recipes_store_missing_allergen_rolls_back (db : DB) (rc : RecipeCreate)
    (hwf : (db.allergens.map Allergen.id).Nodup)
    (aid : Int) (hmem : aid ∈ rc.allergen_ids)
    (hmiss : ∀ a ∈ db.allergens, a.id ≠ aid) :
    failsNotFound (recipesStore db rc) ∧
    recipesStoreDB db rc = db ∧
    ∀ skip limit d, recipesIndex (recipesStoreDB db rc) skip limit d
      = recipesIndex db skip limit d := by
  have hne : rc.allergen_ids ≠ [] := by
    intro h
    rw [h] at hmem
    exact absurd hmem (List.not_mem_nil aid)
  have hlt := length_filter_contains_lt_of_missing Allergen.id db.allergens
    rc.allergen_ids hwf aid hmem hmiss
  have herr : failsNotFound (recipesStore db rc) := by
    cases hfind : db.cuisines.find? (fun x => x.id == rc.cuisine_id) with
    | none => exact ⟨"Cuisine not found", recipesStore_eq_error_cuisine db rc hfind⟩
    | some c =>
      exact ⟨"One or more allergens not found",
        recipesStore_eq_error_allergens db rc c hfind hne (by omega)⟩
  rcases herr with ⟨d0, hd0⟩
  have hdb : recipesStoreDB db rc = db := by
    unfold recipesStoreDB
    rw [hd0]
  exact ⟨⟨d0, hd0⟩, hdb, fun skip limit d => by rw [hdb]⟩

/-- Closed instance of the C2 theorem: allergen id 2 is requested but only
allergen 1 is stored, so the create fails with a 404 and the database is
unchanged. -/
theorem recipes_store_missing_allergen_rolls_back_witness :
    failsNotFound (recipesStore
      (DB.mk [Cuisine.mk 1 "Italian"] [Allergen.mk 1 "Peanuts"] [] [] [] [] 1 1 1)
      (RecipeCreate.mk "Pasta!" (some "yum") "Boil water then serve" 20 2 1 [1, 2] [])) ∧
    recipesStoreDB
        (DB.mk [Cuisine.mk 1 "Italian"] [Allergen.mk 1 "Peanuts"] [] [] [] [] 1 1 1)
        (RecipeCreate.mk "Pasta!" (some "yum") "Boil water then serve" 20 2 1 [1, 2] [])
      = DB.mk [Cuisine.mk 1 "Italian"] [Allergen.mk 1 "Peanuts"] [] [] [] [] 1 1 1 := by
  have h := recipes_store_missing_allergen_rolls_back
    (DB.mk [Cuisine.mk 1 "Italian"] [Allergen.mk 1 "Peanuts"] [] [] [] [] 1 1 1)
    (RecipeCreate.mk "Pasta!" (some "yum") "Boil water then serve" 20 2 1 [1, 2] [])
    (by decide) 2 (by decide) (by decide)
  exact ⟨h.1, h.2.1⟩

/-- C3 counterexample: a valid create request whose two ingredient entries
both reference the existing ingredient 1 does not succeed; the batch check
compares the one distinct matched row against the two entries and raises
404, contrary to the claim that duplicate entries are not rejected. -/
theorem recipes_store_duplicate_entry_rejected_counterexample :
    (RecipeCreate.mk "Pasta!" (some "yum") "Boil water then serve" 20 2 1 []
      [RecipeIngredientCreate.mk 1 2 1, RecipeIngredientCreate.mk 1 3 1]).Valid ∧
    (∀ e ∈ (RecipeCreate.mk "Pasta!" (some "yum") "Boil water then serve" 20 2 1 []
      [RecipeIngredientCreate.mk 1 2 1, RecipeIngredientCreate.mk 1 3 1]).ingredients,
      ∃ i ∈ (DB.mk [Cuisine.mk 1 "Italian"] [] [Ingredient.mk 1 "Tomato"] [] [] [] 1 1 1).ingredients,
        i.id = e.ingredient_id) ∧
    recipesStore (DB.mk [Cuisine.mk 1 "Italian"] [] [Ingredient.mk 1 "Tomato"] [] [] [] 1 1 1)
        (RecipeCreate.mk "Pasta!" (some "yum") "Boil water then serve" 20 2 1 []
          [RecipeIngredientCreate.mk 1 2 1, RecipeIngredientCreate.mk 1 3 1])
      = Except.error (ApiError.notFound "One or more ingredients not found") := by
  exact ⟨by decide, by decide, by decide⟩

/-- C3 (amended): an ingredients list that repeats an `ingredient_id` makes
the create fail with `NotFound` and persist nothing, because the batch check
compares the distinct matched rows against the number of entries; when the
entries' ids are pairwise distinct (and the cuisine exists, the allergen
check passes, every entry's ingredient exists and a description is present),
the create succeeds and persists exactly one `RecipeIngredient` row per
entry, carrying that entry's id, quantity and measurement. -/
theorem recipes_store_ingredient_entries (db : DB) (rc : RecipeCreate)
    (hwi : (db.ingredients.map Ingredient.id).Nodup)
    (hwa : (db.allergens.map Allergen.id).Nodup) :
    (¬ (rc.ingredients.map RecipeIngredientCreate.ingredient_id).Nodup →
      failsNotFound (recipesStore db rc) ∧ recipesStoreDB db rc = db) ∧
    ((rc.ingredients.map RecipeIngredientCreate.ingredient_id).Nodup →
     (∀ e ∈ rc.ingredients, ∃ i ∈ db.ingredients, i.id = e.ingredient_id) →
     (∃ c ∈ db.cuisines, c.id = rc.cuisine_id) →
     rc.allergen_ids.Nodup →
     (∀ aid ∈ rc.allergen_ids, ∃ a ∈ db.allergens, a.id = aid) →
     ∀ d, rc.description = some d →
      ∃ db' view, recipesStore db rc = Except.ok (db', view) ∧
        db'.recipe_ingredients = db.recipe_ingredients ++
          rc.ingredients.enum.map (fun p =>
            RecipeIngredient.mk (db.next_recipe_ingredient_id + (p.1 : Int))
              db.next_recipe_id p.2.ingredient_id p.2.quantity p.2.measurement) ∧
        db'.recipe_ingredients.length
          = db.recipe_ingredients.length + rc.ingredients.length) := by
  constructor
  · intro hdup
    have herr : failsNotFound (recipesStore db rc) := by
      cases hfind : db.cuisines.find? (fun x => x.id == rc.cuisine_id) with
      | none => exact ⟨_, recipesStore_eq_error_cuisine db rc hfind⟩
      | some c =>
        by_cases hall : (db.allergens.filter (fun a => rc.allergen_ids.contains a.id)).length
            = rc.allergen_ids.length
        · have hlt := length_filter_contains_lt_of_dup Ingredient.id db.ingredients
            (rc.ingredients.map RecipeIngredientCreate.ingredient_id) hwi hdup
          refine ⟨_, recipesStore_eq_error_ingredients db rc c hfind hall ?_⟩
          rw [List.length_map] at hlt
          omega
        · have hne : rc.allergen_ids ≠ [] := by
            intro h
            apply hall
            rw [h]
            simp
          exact ⟨_, recipesStore_eq_error_allergens db rc c hfind hne hall⟩
    rcases herr with ⟨d0, hd0⟩
    have hdb : recipesStoreDB db rc = db := by
      unfold recipesStoreDB
      rw [hd0]
    exact ⟨⟨d0, hd0⟩, hdb⟩
  · intro hnd hcovI hcu hand hcovA d hdesc
    have hsome : (db.cuisines.find? (fun x => x.id == rc.cuisine_id)).isSome := by
      rw [List.find?_isSome]
      rcases hcu with ⟨c, hc, hcid⟩
      exact ⟨c, hc, by simpa using hcid⟩
    rcases Option.isSome_iff_exists.1 hsome with ⟨c, hfind⟩
    have hall := length_filter_contains_eq_of_covered Allergen.id db.allergens
      rc.allergen_ids hwa hand hcovA
    have hing : (db.ingredients.filter (fun i =>
        (rc.ingredients.map RecipeIngredientCreate.ingredient_id).contains i.id)).length
        = rc.ingredients.length := by
      have := length_filter_contains_eq_of_covered Ingredient.id db.ingredients
        (rc.ingredients.map RecipeIngredientCreate.ingredient_id) hwi hnd ?_
      · rw [this, List.length_map]
      · intro i hi
        rcases List.mem_map.1 hi with ⟨e, he, rfl⟩
        exact hcovI e he
    have hok := recipesStore_eq_ok db rc c d hfind hall hing hdesc
    refine ⟨_, _, hok, rfl, ?_⟩
    simp [List.length_append]

/-- Closed instance of the amended C3 theorem: with the two entries
referencing the distinct existing ingredients 1 and 2, the create commits
one `RecipeIngredient` row per entry. -/
theorem recipes_store_ingredient_entries_witness :
    ∃ db' view,
      recipesStore
          (DB.mk [Cuisine.mk 1 "Italian"] []
            [Ingredient.mk 1 "Tomato", Ingredient.mk 2 "Basil"] [] [] [] 1 1 3)
          (RecipeCreate.mk "Pasta!" (some "yum") "Boil water then serve" 20 2 1 []
            [RecipeIngredientCreate.mk 1 2 1, RecipeIngredientCreate.mk 2 3 2])
        = Except.ok (db', view) ∧
      db'.recipe_ingredients =
        [RecipeIngredient.mk 1 1 1 2 1, RecipeIngredient.mk 2 1 2 3 2] ∧
      db'.recipe_ingredients.length = 2 := by
  have h := (recipes_store_ingredient_entries
    (DB.mk [Cuisine.mk 1 "Italian"] []
      [Ingredient.mk 1 "Tomato", Ingredient.mk 2 "Basil"] [] [] [] 1 1 3)
    (RecipeCreate.mk "Pasta!" (some "yum") "Boil water then serve" 20 2 1 []
      [RecipeIngredientCreate.mk 1 2 1, RecipeIngredientCreate.mk 2 3 2])
    (by decide) (by decide)).2
    (by decide) (by decide) (by decide) (by decide) (by decide) "yum" rfl
  rcases h with ⟨db', view, hok, hrows, hlen⟩
  exact ⟨db', view, hok, by rw [hrows]; decide, by rw [hlen]; decide⟩

/-- C4 counterexample: creating the ingredient "Salt" when an ingredient of
that name is already stored does not produce a 409 Conflict: the handler has
no duplicate check and no exception handler, so the UNIQUE constraint
violation surfaces as an HTTP 500, not 409. -/
theorem ingredients_store_duplicate_not_conflict :
    ingredientsStore (DB.mk [] [] [Ingredient.mk 1 "Salt"] [] [] [] 1 1 2) "Salt"
      = Except.error (ApiError.integrityError "UNIQUE constraint failed: ingredients.name") ∧
    (ApiError.integrityError "UNIQUE constraint failed: ingredients.name").status = 500 := by
  exact ⟨by decide, rfl⟩

/-- C4 (amended): creating an ingredient whose name is already stored fails
with the database's unique-constraint violation — an IntegrityError that no
handler catches, surfaced as HTTP 500 rather than 409 — and inserts no row;
creating an ingredient with a fresh name inserts it and returns it with its
assigned id (HTTP 201). -/
theorem ingredients_store_unique_name (db : DB) (nm : String) :
    ((∃ i ∈ db.ingredients, i.name = nm) →
      ingredientsStore db nm
        = Except.error (ApiError.integrityError "UNIQUE constraint failed: ingredients.name") ∧
      (ApiError.integrityError "UNIQUE constraint failed: ingredients.name").status = 500 ∧
      ingredientsStoreDB db nm = db) ∧
    ((∀ i ∈ db.ingredients, i.name ≠ nm) →
      ingredientsStore db nm = Except.ok
        ({ db with
           ingredients := db.ingredients ++ [Ingredient.mk db.next_ingredient_id nm],
           next_ingredient_id := db.next_ingredient_id + 1 },
         Ingredient.mk db.next_ingredient_id nm)) := by
  constructor
  · intro hdup
    have hany : db.ingredients.any (fun i => i.name == nm) = true := by
      rw [List.any_eq_true]
      rcases hdup with ⟨i, hi, hin⟩
      exact ⟨i, hi, by simpa using hin⟩
    have herr : ingredientsStore db nm
        = Except.error (ApiError.integrityError "UNIQUE constraint failed: ingredients.name") := by
      unfold ingredientsStore
      rw [hany]
      rfl
    refine ⟨herr, rfl, ?_⟩
    unfold ingredientsStoreDB
    rw [herr]
  · intro hfresh
    have hany : db.ingredients.any (fun i => i.name == nm) = false := by
      rw [Bool.eq_false_iff]
      intro hc
      rcases List.any_eq_true.1 hc with ⟨i, hi, hin⟩
      exact hfresh i hi (by simpa using hin)
    unfold ingredientsStore
    rw [hany]
    rfl

/-- Closed instance of the amended C4 theorem: re-creating "Salt" fails with
the 500 IntegrityError and leaves the table unchanged, while creating
"Pepper" inserts it with the next id. -/
theorem ingredients_store_unique_name_witness :
    ingredientsStore (DB.mk [] [] [Ingredient.mk 1 "Salt"] [] [] [] 1 1 2) "Salt"
      = Except.error (ApiError.integrityError "UNIQUE constraint failed: ingredients.name") ∧
    ingredientsStoreDB (DB.mk [] [] [Ingredient.mk 1 "Salt"] [] [] [] 1 1 2) "Salt"
      = DB.mk [] [] [Ingredient.mk 1 "Salt"] [] [] [] 1 1 2 ∧
    ingredientsStore (DB.mk [] [] [Ingredient.mk 1 "Salt"] [] [] [] 1 1 2) "Pepper"
      = Except.ok (DB.mk [] [] [Ingredient.mk 1 "Salt", Ingredient.mk 2 "Pepper"] [] [] [] 1 1 3,
          Ingredient.mk 2 "Pepper") := by
  have h1 := (ingredients_store_unique_name
    (DB.mk [] [] [Ingredient.mk 1 "Salt"] [] [] [] 1 1 2) "Salt").1
    ⟨Ingredient.mk 1 "Salt", by decide, rfl⟩
  have h2 := (ingredients_store_unique_name
    (DB.mk [] [] [Ingredient.mk 1 "Salt"] [] [] [] 1 1 2) "Pepper").2 (by decide)
  exact ⟨h1.1, h1.2.2, h2⟩

/-- C5: the claim says the Allergen `get(id)` returns the stored allergen or
fails with 404 and never fails otherwise; the code instead always raises
`UnboundLocalError` (HTTP 500) because the handler's local variable
`Allergen` shadows the model class, so even a stored allergen is never
returned.  The first conjunct evaluates the handler on a database that does
store allergen 1. -/
theorem allergens_show_always_internal_error :
    allergensShow (DB.mk [] [Allergen.mk 1 "Peanuts"] [] [] [] [] 1 1 1) 1
      = Except.error (ApiError.unboundLocalError "Allergen") ∧
    (ApiError.unboundLocalError "Allergen").status = 500 ∧
    ∀ db id, allergensShow db id = Except.error (ApiError.unboundLocalError "Allergen") := by
  exact ⟨rfl, rfl, fun _ _ => rfl⟩

/-- C6 counterexample: a partial-update request that explicitly supplies
`description: null` for the stored recipe 1 does not change exactly the
supplied field — `setattr` writes `None` into the NOT NULL
`recipes.description` column, the commit raises an IntegrityError surfaced
as HTTP 500, and the database is unchanged. -/
theorem recipes_update_explicit_null_counterexample :
    recipesUpdate
        (DB.mk [Cuisine.mk 1 "Italian"] [] []
          [Recipe.mk 1 "Old title" "desc" "Boil water then serve" 10 3 1]
          [RecipeAllergens.mk 1 4] [RecipeIngredient.mk 1 1 2 5 1] 2 2 1)
        1 (RecipeUpdate.mk none (some none) none none none none)
      = Except.error (ApiError.integrityError "NOT NULL constraint failed: recipes") ∧
    (ApiError.integrityError "NOT NULL constraint failed: recipes").status = 500 ∧
    recipesUpdateDB
        (DB.mk [Cuisine.mk 1 "Italian"] [] []
          [Recipe.mk 1 "Old title" "desc" "Boil water then serve" 10 3 1]
          [RecipeAllergens.mk 1 4] [RecipeIngredient.mk 1 1 2 5 1] 2 2 1)
        1 (RecipeUpdate.mk none (some none) none none none none)
      = DB.mk [Cuisine.mk 1 "Italian"] [] []
          [Recipe.mk 1 "Old title" "desc" "Boil water then serve" 10 3 1]
          [RecipeAllergens.mk 1 4] [RecipeIngredient.mk 1 1 2 5 1] 2 2 1 := by
  exact ⟨by decide, rfl, by decide⟩

/-- C6 (amended): recipe update is a patch, provided no supplied field is an
explicit null.  On an absent id it fails 404.  On a stored recipe, a request
supplying an explicit null for any of the six fields fails at commit with an
uncaught NOT NULL IntegrityError (HTTP 500) and changes nothing, because all
six columns are non-nullable; otherwise it commits exactly the applied
update: every field supplied with a value takes that value, every omitted
field keeps the row's old value, the recipe's id is untouched, every other
table — allergen associations and ingredient links included — is untouched,
and every other recipe row is untouched. -/
theorem recipes_update_patch_semantics (db : DB) (id : Int) (u : RecipeUpdate) :
    ((∀ r ∈ db.recipes, r.id ≠ id) →
      recipesUpdate db id u = Except.error (ApiError.notFound "Recipe not found")) ∧
    ((∃ r ∈ db.recipes, r.id = id) → u.hasNullField = true →
      recipesUpdate db id u
        = Except.error (ApiError.integrityError "NOT NULL constraint failed: recipes") ∧
      recipesUpdateDB db id u = db) ∧
    (∀ r0, db.recipes.find? (fun r => r.id == id) = some r0 →
      u.hasNullField = false →
      recipesUpdate db id u = Except.ok
        ({ db with recipes := db.recipes.map (fun r =>
            if r.id == id then applyRecipeUpdate u r else r) },
         applyRecipeUpdate u r0)) ∧
    (∀ r : Recipe,
      (applyRecipeUpdate u r).id = r.id ∧
      (u.title = none → (applyRecipeUpdate u r).title = r.title) ∧
      (∀ v, u.title = some (some v) → (applyRecipeUpdate u r).title = v) ∧
      (u.description = none → (applyRecipeUpdate u r).description = r.description) ∧
      (∀ v, u.description = some (some v) → (applyRecipeUpdate u r).description = v) ∧
      (u.instructions = none → (applyRecipeUpdate u r).instructions = r.instructions) ∧
      (∀ v, u.instructions = some (some v) → (applyRecipeUpdate u r).instructions = v) ∧
      (u.cooking_time = none → (applyRecipeUpdate u r).cooking_time = r.cooking_time) ∧
      (∀ v, u.cooking_time = some (some v) → (applyRecipeUpdate u r).cooking_time = v) ∧
      (u.difficulty = none → (applyRecipeUpdate u r).difficulty = r.difficulty) ∧
      (∀ v, u.difficulty = some (some v) → (applyRecipeUpdate u r).difficulty = v) ∧
      (u.cuisine_id = none → (applyRecipeUpdate u r).cuisine_id = r.cuisine_id) ∧
      (∀ v, u.cuisine_id = some (some v) → (applyRecipeUpdate u r).cuisine_id = v)) ∧
    (∀ db' r', recipesUpdate db id u = Except.ok (db', r') →
      db'.cuisines = db.cuisines ∧ db'.allergens = db.allergens ∧
      db'.ingredients = db.ingredients ∧
      db'.recipe_allergens = db.recipe_allergens ∧
      db'.recipe_ingredients = db.recipe_ingredients ∧
      (∀ r ∈ db.recipes, r.id ≠ id → r ∈ db'.recipes)) := by
  refine ⟨?_, ?_, ?_, ?_, ?_⟩
  · intro habs
    have hfind : db.recipes.find? (fun r => r.id == id) = none := by
      rw [List.find?_eq_none]
      intro r hr
      simpa using habs r hr
    unfold recipesUpdate
    rw [hfind]
  · intro hex hnull
    have hsome : (db.recipes.find? (fun r => r.id == id)).isSome := by
      rw [List.find?_isSome]
      rcases hex with ⟨r, hr, hid⟩
      exact ⟨r, hr, by simpa using hid⟩
    rcases Option.isSome_iff_exists.1 hsome with ⟨r0, hfind⟩
    have herr : recipesUpdate db id u
        = Except.error (ApiError.integrityError "NOT NULL constraint failed: recipes") := by
      unfold recipesUpdate
      rw [hfind]
      simp [hnull]
    refine ⟨herr, ?_⟩
    unfold recipesUpdateDB
    rw [herr]
  · intro r0 hfind hnull
    unfold recipesUpdate
    rw [hfind]
    simp [hnull]
  · intro r
    refine ⟨rfl, ?_, ?_, ?_, ?_, ?_, ?_, ?_, ?_, ?_, ?_, ?_, ?_⟩ <;>
      first
        | (intro v h; simp [applyRecipeUpdate, h])
        | (intro h; simp [applyRecipeUpdate, h])
  · intro db' r' hok
    cases hfind : db.recipes.find? (fun r => r.id == id) with
    | none =>
      unfold recipesUpdate at hok
      rw [hfind] at hok
      exact absurd hok (by simp)
    | some r0 =>
      unfold recipesUpdate at hok
      rw [hfind] at hok
      cases hnf : u.hasNullField with
      | true =>
        rw [hnf] at hok
        exact absurd hok (by simp)
      | false =>
        rw [hnf] at hok
        simp only [Bool.false_eq_true, if_false, ite_false] at hok
        injection hok with hpair
        injection hpair with hdb hr
        subst hdb
        refine ⟨rfl, rfl, rfl, rfl, rfl, ?_⟩
        intro r hr hne
        have hfix : (if r.id == id then applyRecipeUpdate u r else r) = r := by
          rw [if_neg]
          simpa using hne
        exact hfix ▸ List.mem_map_of_mem _ hr

/-- Closed instance of the amended C6 theorem: updating recipe 1's title and
difficulty with values changes exactly those two fields and no other table,
supplying an explicit null for the title fails with the 500 IntegrityError
and changes nothing, and updating the absent id 9 fails 404. -/
theorem recipes_update_patch_semantics_witness :
    recipesUpdate
        (DB.mk [Cuisine.mk 1 "Italian"] [] []
          [Recipe.mk 1 "Old title" "desc" "Boil water then serve" 10 3 1]
          [RecipeAllergens.mk 1 4] [RecipeIngredient.mk 1 1 2 5 1] 2 2 1)
        1 (RecipeUpdate.mk (some (some "New title")) none none none (some (some 5)) none)
      = Except.ok
        (DB.mk [Cuisine.mk 1 "Italian"] [] []
          [Recipe.mk 1 "New title" "desc" "Boil water then serve" 10 5 1]
          [RecipeAllergens.mk 1 4] [RecipeIngredient.mk 1 1 2 5 1] 2 2 1,
         Recipe.mk 1 "New title" "desc" "Boil water then serve" 10 5 1) ∧
    recipesUpdate
        (DB.mk [Cuisine.mk 1 "Italian"] [] []
          [Recipe.mk 1 "Old title" "desc" "Boil water then serve" 10 3 1]
          [RecipeAllergens.mk 1 4] [RecipeIngredient.mk 1 1 2 5 1] 2 2 1)
        1 (RecipeUpdate.mk (some none) none none none none none)
      = Except.error (ApiError.integrityError "NOT NULL constraint failed: recipes") ∧
    recipesUpdateDB
        (DB.mk [Cuisine.mk 1 "Italian"] [] []
          [Recipe.mk 1 "Old title" "desc" "Boil water then serve" 10 3 1]
          [RecipeAllergens.mk 1 4] [RecipeIngredient.mk 1 1 2 5 1] 2 2 1)
        1 (RecipeUpdate.mk (some none) none none none none none)
      = DB.mk [Cuisine.mk 1 "Italian"] [] []
          [Recipe.mk 1 "Old title" "desc" "Boil water then serve" 10 3 1]
          [RecipeAllergens.mk 1 4] [RecipeIngredient.mk 1 1 2 5 1] 2 2 1 ∧
    recipesUpdate
        (DB.mk [Cuisine.mk 1 "Italian"] [] []
          [Recipe.mk 1 "Old title" "desc" "Boil water then serve" 10 3 1]
          [RecipeAllergens.mk 1 4] [RecipeIngredient.mk 1 1 2 5 1] 2 2 1)
        9 (RecipeUpdate.mk (some (some "New title")) none none none (some (some 5)) none)
      = Except.error (ApiError.notFound "Recipe not found") := by
  have h1 := (recipes_update_patch_semantics
    (DB.mk [Cuisine.mk 1 "Italian"] [] []
      [Recipe.mk 1 "Old title" "desc" "Boil water then serve" 10 3 1]
      [RecipeAllergens.mk 1 4] [RecipeIngredient.mk 1 1 2 5 1] 2 2 1)
    1 (RecipeUpdate.mk (some (some "New title")) none none none (some (some 5)) none)).2.2.1
    (Recipe.mk 1 "Old title" "desc" "Boil water then serve" 10 3 1) (by decide) (by decide)
  have hn := (recipes_update_patch_semantics
    (DB.mk [Cuisine.mk 1 "Italian"] [] []
      [Recipe.mk 1 "Old title" "desc" "Boil water then serve" 10 3 1]
      [RecipeAllergens.mk 1 4] [RecipeIngredient.mk 1 1 2 5 1] 2 2 1)
    1 (RecipeUpdate.mk (some none) none none none none none)).2.1
    ⟨Recipe.mk 1 "Old title" "desc" "Boil water then serve" 10 3 1, by decide, rfl⟩
    (by decide)
  have h2 := (recipes_update_patch_semantics
    (DB.mk [Cuisine.mk 1 "Italian"] [] []
      [Recipe.mk 1 "Old title" "desc" "Boil water then serve" 10 3 1]
      [RecipeAllergens.mk 1 4] [RecipeIngredient.mk 1 1 2 5 1] 2 2 1)
    9 (RecipeUpdate.mk (some (some "New title")) none none none (some (some 5)) none)).1
    (by decide)
  exact ⟨h1.trans (by decide), hn.1, hn.2, h2⟩

/-- C7: deleting a stored recipe removes its row, all of its
`RecipeIngredient` rows and all of its allergen-association rows, and leaves
the cuisine, allergen and ingredient tables — and every row of other
recipes — untouched; deleting an absent id fails 404 and changes nothing. -/
theorem recipes_destroy_cascade (db : DB) (id : Int) :
    ((∀ r ∈ db.recipes, r.id ≠ id) →
      recipesDestroy db id = Except.error (ApiError.notFound "Recipe not found")) ∧
    ((∃ r ∈ db.recipes, r.id = id) →
      ∃ db', recipesDestroy db id = Except.ok db' ∧
        (∀ r, r ∈ db'.recipes ↔ r ∈ db.recipes ∧ r.id ≠ id) ∧
        (∀ l, l ∈ db'.recipe_ingredients ↔
          l ∈ db.recipe_ingredients ∧ l.recipe_id ≠ id) ∧
        (∀ a, a ∈ db'.recipe_allergens ↔
          a ∈ db.recipe_allergens ∧ a.recipe_id ≠ id) ∧
        db'.cuisines = db.cuisines ∧ db'.allergens = db.allergens ∧
        db'.ingredients = db.ingredients) := by
  constructor
  · intro habs
    have hfind : db.recipes.find? (fun r => r.id == id) = none := by
      rw [List.find?_eq_none]
      intro r hr
      simpa using habs r hr
    unfold recipesDestroy
    rw [hfind]
  · intro hex
    have hsome : (db.recipes.find? (fun r => r.id == id)).isSome := by
      rw [List.find?_isSome]
      rcases hex with ⟨r, hr, hid⟩
      exact ⟨r, hr, by simpa using hid⟩
    rcases Option.isSome_iff_exists.1 hsome with ⟨r0, hfind⟩
    have hdel : recipesDestroy db id = Except.ok
        { db with
          recipes := db.recipes.filter (fun r => r.id != id),
          recipe_ingredients := db.recipe_ingredients.filter (fun l => l.recipe_id != id),
          recipe_allergens := db.recipe_allergens.filter (fun a => a.recipe_id != id) } := by
      unfold recipesDestroy
      rw [hfind]
    refine ⟨_, hdel, ?_, ?_, ?_, rfl, rfl, rfl⟩
    · intro r
      simp [List.mem_filter]
    · intro l
      simp [List.mem_filter]
    · intro a
      simp [List.mem_filter]

/-- Closed instance of the C7 theorem: deleting recipe 1 removes its two
link rows and its association row while recipe 2's rows and all reference
tables survive, and deleting the absent id 9 fails 404. -/
theorem recipes_destroy_cascade_witness :
    recipesDestroy
        (DB.mk [Cuisine.mk 1 "Italian"] [Allergen.mk 4 "Nuts"] [Ingredient.mk 2 "Tomato"]
          [Recipe.mk 1 "Pasta" "d" "Boil water then serve" 10 3 1,
           Recipe.mk 2 "Soup" "d" "Simmer gently for an hour" 30 2 1]
          [RecipeAllergens.mk 1 4]
          [RecipeIngredient.mk 1 1 2 5 1, RecipeIngredient.mk 2 1 2 1 2,
           RecipeIngredient.mk 3 2 2 4 1] 3 4 3)
        1
      = Except.ok
        (DB.mk [Cuisine.mk 1 "Italian"] [Allergen.mk 4 "Nuts"] [Ingredient.mk 2 "Tomato"]
          [Recipe.mk 2 "Soup" "d" "Simmer gently for an hour" 30 2 1]
          [] [RecipeIngredient.mk 3 2 2 4 1] 3 4 3) ∧
    recipesDestroy
        (DB.mk [Cuisine.mk 1 "Italian"] [Allergen.mk 4 "Nuts"] [Ingredient.mk 2 "Tomato"]
          [Recipe.mk 1 "Pasta" "d" "Boil water then serve" 10 3 1,
           Recipe.mk 2 "Soup" "d" "Simmer gently for an hour" 30 2 1]
          [RecipeAllergens.mk 1 4]
          [RecipeIngredient.mk 1 1 2 5 1, RecipeIngredient.mk 2 1 2 1 2,
           RecipeIngredient.mk 3 2 2 4 1] 3 4 3)
        9
      = Except.error (ApiError.notFound "Recipe not found") := by
  have h1 := (recipes_destroy_cascade
    (DB.mk [Cuisine.mk 1 "Italian"] [Allergen.mk 4 "Nuts"] [Ingredient.mk 2 "Tomato"]
      [Recipe.mk 1 "Pasta" "d" "Boil water then serve" 10 3 1,
       Recipe.mk 2 "Soup" "d" "Simmer gently for an hour" 30 2 1]
      [RecipeAllergens.mk 1 4]
      [RecipeIngredient.mk 1 1 2 5 1, RecipeIngredient.mk 2 1 2 1 2,
       RecipeIngredient.mk 3 2 2 4 1] 3 4 3) 1).2
    ⟨Recipe.mk 1 "Pasta" "d" "Boil water then serve" 10 3 1, by decide, rfl⟩
  have h2 := (recipes_destroy_cascade
    (DB.mk [Cuisine.mk 1 "Italian"] [Allergen.mk 4 "Nuts"] [Ingredient.mk 2 "Tomato"]
      [Recipe.mk 1 "Pasta" "d" "Boil water then serve" 10 3 1,
       Recipe.mk 2 "Soup" "d" "Simmer gently for an hour" 30 2 1]
      [RecipeAllergens.mk 1 4]
      [RecipeIngredient.mk 1 1 2 5 1, RecipeIngredient.mk 2 1 2 1 2,
       RecipeIngredient.mk 3 2 2 4 1] 3 4 3) 9).1 (by decide)
  rcases h1 with ⟨db', hdel, _⟩
  exact ⟨by decide, h2⟩

/-- C8: listing recipes by ingredient fails 404 when the ingredient does not
exist; when it exists, it returns exactly the distinct set of recipes having
at least one `RecipeIngredient` row referencing it — duplicate-free even
when a recipe references the ingredient through several rows, and empty when
no recipe references it. -/
theorem recipes_by_ingredient_spec (db : DB) (id : Int)
    (hwr : (db.recipes.map Recipe.id).Nodup) :
    ((∀ i ∈ db.ingredients, i.id ≠ id) →
      getRecipesByIngredient db id
        = Except.error (ApiError.notFound "Ingredient not found")) ∧
    ((∃ i ∈ db.ingredients, i.id = id) →
      ∃ rows, getRecipesByIngredient db id = Except.ok rows ∧
        (∀ r, r ∈ rows ↔ r ∈ db.recipes ∧
          ∃ l ∈ db.recipe_ingredients, l.recipe_id = r.id ∧ l.ingredient_id = id) ∧
        rows.Nodup ∧
        ((∀ l ∈ db.recipe_ingredients, l.ingredient_id ≠ id) → rows = [])) := by
  constructor
  · intro habs
    have hfind : db.ingredients.find? (fun i => i.id == id) = none := by
      rw [List.find?_eq_none]
      intro i hi
      simpa using habs i hi
    unfold getRecipesByIngredient
    rw [hfind]
  · intro hex
    have hsome : (db.ingredients.find? (fun i => i.id == id)).isSome := by
      rw [List.find?_isSome]
      rcases hex with ⟨i, hi, hid⟩
      exact ⟨i, hi, by simpa using hid⟩
    rcases Option.isSome_iff_exists.1 hsome with ⟨i0, hfind⟩
    have hrows : getRecipesByIngredient db id = Except.ok
        (db.recipes.filter (fun r =>
          db.recipe_ingredients.any (fun l => l.recipe_id == r.id && l.ingredient_id == id))) := by
      unfold getRecipesByIngredient
      rw [hfind]
    refine ⟨_, hrows, ?_, ?_, ?_⟩
    · intro r
      simp [List.mem_filter, List.any_eq_true]
    · exact (List.Nodup.of_map _ hwr).filter _
    · intro hnone
      rw [List.filter_eq_nil_iff]
      intro r hr
      simp only [List.any_eq_true, Bool.and_eq_true, beq_iff_eq, not_exists]
      rintro l ⟨hl, _, hing⟩
      exact hnone l hl hing

/-- Closed instance of the C8 theorem: ingredient 2 is referenced twice by
recipe 1 and once by recipe 2, and the listing returns each of the two
recipes exactly once; ingredient 7 does not exist and yields 404. -/
theorem recipes_by_ingredient_spec_witness :
    getRecipesByIngredient
        (DB.mk [Cuisine.mk 1 "Italian"] [] [Ingredient.mk 2 "Tomato"]
          [Recipe.mk 1 "Pasta" "d" "Boil water then serve" 10 3 1,
           Recipe.mk 2 "Soup" "d" "Simmer gently for an hour" 30 2 1]
          []
          [RecipeIngredient.mk 1 1 2 5 1, RecipeIngredient.mk 2 1 2 1 2,
           RecipeIngredient.mk 3 2 2 4 1] 3 4 3)
        2
      = Except.ok
        [Recipe.mk 1 "Pasta" "d" "Boil water then serve" 10 3 1,
         Recipe.mk 2 "Soup" "d" "Simmer gently for an hour" 30 2 1] ∧
    getRecipesByIngredient
        (DB.mk [Cuisine.mk 1 "Italian"] [] [Ingredient.mk 2 "Tomato"]
          [Recipe.mk 1 "Pasta" "d" "Boil water then serve" 10 3 1,
           Recipe.mk 2 "Soup" "d" "Simmer gently for an hour" 30 2 1]
          []
          [RecipeIngredient.mk 1 1 2 5 1, RecipeIngredient.mk 2 1 2 1 2,
           RecipeIngredient.mk 3 2 2 4 1] 3 4 3)
        7
      = Except.error (ApiError.notFound "Ingredient not found") := by
  have h := recipes_by_ingredient_spec
    (DB.mk [Cuisine.mk 1 "Italian"] [] [Ingredient.mk 2 "Tomato"]
      [Recipe.mk 1 "Pasta" "d" "Boil water then serve" 10 3 1,
       Recipe.mk 2 "Soup" "d" "Simmer gently for an hour" 30 2 1]
      []
      [RecipeIngredient.mk 1 1 2 5 1, RecipeIngredient.mk 2 1 2 1 2,
       RecipeIngredient.mk 3 2 2 4 1] 3 4 3)
    2 (by decide)
  have h2 := (recipes_by_ingredient_spec
    (DB.mk [Cuisine.mk 1 "Italian"] [] [Ingredient.mk 2 "Tomato"]
      [Recipe.mk 1 "Pasta" "d" "Boil water then serve" 10 3 1,
       Recipe.mk 2 "Soup" "d" "Simmer gently for an hour" 30 2 1]
      []
      [RecipeIngredient.mk 1 1 2 5 1, RecipeIngredient.mk 2 1 2 1 2,
       RecipeIngredient.mk 3 2 2 4 1] 3 4 3)
    7 (by decide)).1 (by decide)
  rcases (h.2 ⟨Ingredient.mk 2 "Tomato", by decide, rfl⟩) with ⟨rows, hok, _⟩
  exact ⟨by decide, h2⟩

/-- C9: the code contradicts its own request schema.  `RecipeCreate`
declares `description` optional, but the `recipes.description` column is
declared NOT NULL (`Mapped[str]` without `Optional`), so a valid create
request that omits the description — with an existing cuisine and all other
checks passing — fails at flush with an IntegrityError surfaced as HTTP 500
instead of storing the recipe without a description. -/
theorem recipes_store_omitted_description_fails :
    (RecipeCreate.mk "Pasta!" none "Boil water then serve" 20 2 1 [] []).Valid ∧
    recipesStore (DB.mk [Cuisine.mk 1 "Italian"] [] [] [] [] [] 1 1 1)
        (RecipeCreate.mk "Pasta!" none "Boil water then serve" 20 2 1 [] [])
      = Except.error
          (ApiError.integrityError "NOT NULL constraint failed: recipes.description") ∧
    (ApiError.integrityError "NOT NULL constraint failed: recipes.description").status
      = 500 := by
  exact ⟨by decide, by decide, rfl⟩

/-- C10 counterexample: two otherwise-valid create requests with an empty
ingredients list still fail — one because its description is omitted (the
NOT NULL column rejects the insert, HTTP 500), one because its
`allergen_ids` repeats the existing allergen 1 and the batch count check
then miscounts and raises 404. -/
theorem recipes_store_empty_ingredients_counterexample :
    (RecipeCreate.mk "Salad Nicoise" none "Toss everything together well" 15 1 2 [] []).Valid ∧
    recipesStore (DB.mk [Cuisine.mk 2 "French"] [Allergen.mk 1 "Eggs"] [] [] [] [] 1 1 1)
        (RecipeCreate.mk "Salad Nicoise" none "Toss everything together well" 15 1 2 [] [])
      = Except.error
          (ApiError.integrityError "NOT NULL constraint failed: recipes.description") ∧
    (RecipeCreate.mk "Salad Nicoise" (some "classic") "Toss everything together well"
        15 1 2 [1, 1] []).Valid ∧
    recipesStore (DB.mk [Cuisine.mk 2 "French"] [Allergen.mk 1 "Eggs"] [] [] [] [] 1 1 1)
        (RecipeCreate.mk "Salad Nicoise" (some "classic") "Toss everything together well"
          15 1 2 [1, 1] [])
      = Except.error (ApiError.notFound "One or more allergens not found") := by
  exact ⟨by decide, by decide, by decide, by decide⟩

/-- C10 (amended): a create request with an empty ingredients list, an
existing cuisine, a duplicate-free list of existing allergen ids and a
description present succeeds — the batch ingredient-existence check passes
vacuously — and the committed transaction adds no `RecipeIngredient` row,
and the returned recipe's ingredients set is empty. -/
theorem recipes_store_empty_ingredients_ok (db : DB) (rc : RecipeCreate)
    (hwa : (db.allergens.map Allergen.id).Nodup)
    (hing : rc.ingredients = [])
    (hcu : ∃ c ∈ db.cuisines, c.id = rc.cuisine_id)
    (hand : rc.allergen_ids.Nodup)
    (hcov : ∀ aid ∈ rc.allergen_ids, ∃ a ∈ db.allergens, a.id = aid)
    (d : String) (hdesc : rc.description = some d) :
    ∃ db' view, recipesStore db rc = Except.ok (db', view) ∧
      view.ingredients = [] ∧
      db'.recipe_ingredients = db.recipe_ingredients := by
  have hsome : (db.cuisines.find? (fun x => x.id == rc.cuisine_id)).isSome := by
    rw [List.find?_isSome]
    rcases hcu with ⟨c, hc, hcid⟩
    exact ⟨c, hc, by simpa using hcid⟩
  rcases Option.isSome_iff_exists.1 hsome with ⟨c, hfind⟩
  have hall := length_filter_contains_eq_of_covered Allergen.id db.allergens
    rc.allergen_ids hwa hand hcov
  have hingl : (db.ingredients.filter (fun i =>
      (rc.ingredients.map RecipeIngredientCreate.ingredient_id).contains i.id)).length
      = rc.ingredients.length := by
    rw [hing]
    simp
  have hok := recipesStore_eq_ok db rc c d hfind hall hingl hdesc
  refine ⟨_, _, hok, ?_, ?_⟩
  · simp [hing]
  · simp [hing]

/-- Closed instance of the amended C10 theorem: with a description present,
an existing cuisine, the existing allergen 1 and no ingredient entries, the
create succeeds with an empty ingredients set. -/
theorem recipes_store_empty_ingredients_ok_witness :
    ∃ db' view,
      recipesStore (DB.mk [Cuisine.mk 2 "French"] [Allergen.mk 1 "Eggs"] [] [] [] [] 1 1 1)
          (RecipeCreate.mk "Salad Nicoise" (some "classic") "Toss everything together well"
            15 1 2 [1] [])
        = Except.ok (db', view) ∧
      view.ingredients = [] ∧
      db'.recipe_ingredients = [] := by
  rcases recipes_store_empty_ingredients_ok
    (DB.mk [Cuisine.mk 2 "French"] [Allergen.mk 1 "Eggs"] [] [] [] [] 1 1 1)
    (RecipeCreate.mk "Salad Nicoise" (some "classic") "Toss everything together well"
      15 1 2 [1] [])
    (by decide) rfl ⟨Cuisine.mk 2 "French", by decide, rfl⟩ (by decide)
    (by decide) "classic" rfl with ⟨db', view, hok, hview, hrows⟩
  exact ⟨db', view, hok, hview, by rw [hrows]⟩

end RecipeApp
